import Mathlib

/-!
Verification development for the TAMcust visitor-management backend.

The service layer (`VisitorService`, `AuthService`) is embedded shallowly:
pure Lean functions, explicit state passing for the database and the
transaction coordinator, `Except` for fallible operations.  External
collaborators that are not part of the sources (the Sequelize repositories,
bcrypt, jwt, the tenant service) are oracles passed as parameters, so the
theorems quantify over every behaviour those collaborators may exhibit.
-/

namespace TAMcust

/-! ## Errors and the localized message catalog -/

/-- Low-level persistence failure reported by a repository: either a unique
constraint violation on a named field, or any other database failure. -/
inductive DbError where
  | uniqueViolation (field : String)
  | other (msg : String)
deriving DecidableEq, Repr

/-- Application-level error signalled by a service operation.  `validation`
embeds `Error400` carrying a localized message key; `dbError` is an
unclassified persistence failure re-signalled unchanged; `jwtError` is a
token verification failure. -/
inductive AppError where
  | validation (key : String)
  | dbError (e : DbError)
  | jwtError
deriving DecidableEq, Repr

/-- Fragment of the English message catalog (the i18n string table in the
sources) restricted to the keys the verified operations use. -/
def enTranslation (key : String) : Option String :=
  if key = "importer.errors.importHashRequired" then
    some "Import hash is required"
  else if key = "importer.errors.importHashExistent" then
    some "Data has already been imported"
  else if key = "auth.userNotFound" then
    some "User not found"
  else
    none

/-- JavaScript falsiness of an optional string: `undefined`/`null` and the
empty string are falsy.  Used for `!importHash`, `if (invitationToken)` and
the `&& tenantId` guard. -/
def strFalsy : Option String → Bool
  | none => true
  | some s => s == ""

/-! ## Visitor data model -/

/-- Attribute payload submitted to `create`/`import`; `importHash` is the
optional bulk-import marker. -/
structure VData where
  payload : String
  importHash : Option String
deriving DecidableEq, Repr

/-- Persisted visitor record. -/
structure Record where
  id : Nat
  payload : String
  importHash : Option String
deriving DecidableEq, Repr

/-- Durable database state for the visitor entity: the list of rows. -/
structure Db where
  rows : List Record
deriving DecidableEq, Repr

/-! ## Transaction coordinator -/

/-- Lifecycle state of a unit of work. -/
inductive TxState where
  | active
  | committed
  | rolledBack
deriving DecidableEq, Repr

/-- Modelled from the spec: `SequelizeRepository`'s transaction coordinator is
not among the sources.  Per the spec a unit of work is opened over the durable
state, buffers the writes made inside its scope, and either commits (the
buffered view becomes durable) or rolls back (all buffered writes are
discarded and the durable state at open time is kept). -/
structure Tx where
  base : Db
  view : Db
  state : TxState
deriving DecidableEq, Repr

/-- Modelled from the spec: opens a unit of work over the durable state. -/
def createTransaction (db : Db) : Tx :=
  { base := db, view := db, state := .active }

/-- Modelled from the spec: commit makes the buffered view durable. -/
def commitTransaction (tx : Tx) : Db × TxState :=
  (tx.view, .committed)

/-- Modelled from the spec: rollback discards every write of the scope and
keeps the durable state that was current when the unit of work opened. -/
def rollbackTransaction (tx : Tx) : Db × TxState :=
  (tx.base, .rolledBack)

/-- Modelled from the spec: `SequelizeRepository.handleUniqueFieldError` is not
among the sources.  Per the spec it inspects a persistence failure and, when
the failure is a uniqueness violation, signals a `ValidationError` carrying a
field-specific localized message for the entity; otherwise it does nothing and
the caller rethrows the original failure. -/
def handleUniqueFieldError (e : DbError) (entity : String) : Option AppError :=
  match e with
  | .uniqueViolation field =>
      some (.validation ("entities." ++ entity ++ ".errors.unique." ++ field))
  | .other _ => none

/-! ## VisitorService -/

/-- Outcome of the asynchronous `sdpService` side channel, never inspected by
the service (the call is not awaited). -/
inductive SdpOutcome where
  | delivered
  | failed
deriving DecidableEq, Repr

/-- Result of a `VisitorService` write operation: the returned value or
propagated error, the durable database afterwards, the terminal state of the
unit of work, and the `sdpService` notifications fired (each paired with its
unobserved asynchronous outcome). -/
structure CreateResult where
  result : Except AppError Record
  db : Db
  tx : TxState
  notifications : List (Record × SdpOutcome)
deriving Repr

namespace VisitorService

/-- Embeds `VisitorService.create`: opens a transaction, calls the repository
(`repo` is the oracle for `VisitorRepository.create` on the submitted data; on
success the persisted record is added to the transaction's view), commits and
fires `sdpService(record)` without awaiting it, or on failure rolls back,
translates a unique-field error and rethrows. -/
def create (repo : VData → Except DbError Record) (sdpOutcome : SdpOutcome)
    (data : VData) (db : Db) : CreateResult :=
  let tx := createTransaction db
  match repo data with
  | .ok record =>
      let tx1 : Tx := { tx with view := ⟨tx.view.rows ++ [record]⟩ }
      let (durable, st) := commitTransaction tx1
      { result := .ok record, db := durable, tx := st,
        notifications := [(record, sdpOutcome)] }
  | .error e =>
      let (durable, st) := rollbackTransaction tx
      { result := .error ((handleUniqueFieldError e "visitor").getD (.dbError e)),
        db := durable, tx := st, notifications := [] }

/-- Embeds `VisitorService.update`: same transactional shape as `create`,
scoped to the record identified by `id`; `repo` is the oracle for
`VisitorRepository.update`; no notification is fired. -/
def update (repo : Nat → VData → Except DbError Record) (id : Nat)
    (data : VData) (db : Db) : CreateResult :=
  let tx := createTransaction db
  match repo id data with
  | .ok record =>
      let tx1 : Tx :=
        { tx with view := ⟨tx.view.rows.map (fun r => if r.id = id then record else r)⟩ }
      let (durable, st) := commitTransaction tx1
      { result := .ok record, db := durable, tx := st, notifications := [] }
  | .error e =>
      let (durable, st) := rollbackTransaction tx
      { result := .error ((handleUniqueFieldError e "visitor").getD (.dbError e)),
        db := durable, tx := st, notifications := [] }

/-- Result of `destroyAll`. -/
structure DestroyResult where
  result : Except AppError Unit
  db : Db
  tx : TxState
deriving Repr

/-- Sequential deletion loop of `destroyAll`: for each id in order, the oracle
`failing` says whether `VisitorRepository.destroy` fails there; on success the
row is removed from the transaction's view. -/
def destroyLoop (failing : Nat → Option DbError) (ids : List Nat) (tx : Tx) :
    Except DbError Tx :=
  match ids with
  | [] => .ok tx
  | id :: rest =>
      match failing id with
      | some e => .error e
      | none =>
          destroyLoop failing rest
            { tx with view := ⟨tx.view.rows.filter (fun r => r.id ≠ id)⟩ }

/-- Embeds `VisitorService.destroyAll`: opens one transaction covering all
ids, deletes each sequentially, commits if every deletion succeeded, rolls
back and rethrows on the first failure. -/
def destroyAll (failing : Nat → Option DbError) (ids : List Nat) (db : Db) :
    DestroyResult :=
  let tx := createTransaction db
  match destroyLoop failing ids tx with
  | .ok tx1 =>
      let (durable, st) := commitTransaction tx1
      { result := .ok (), db := durable, tx := st }
  | .error e =>
      let (durable, st) := rollbackTransaction tx
      { result := .error (.dbError e), db := durable, tx := st }

/-- Embeds `VisitorRepository.count` on an `importHash` filter, as used by
`_isImportHashExistent`: the number of rows whose import hash equals the given
value. -/
def count (db : Db) (importHash : String) : Nat :=
  (db.rows.filter (fun r => r.importHash = some importHash)).length

/-- Embeds `VisitorService._isImportHashExistent`. -/
def isImportHashExistent (db : Db) (importHash : String) : Bool :=
  count db importHash > 0

/-- Embeds `VisitorService.import` (named `importData` because the source name
is a reserved word in Lean): rejects a falsy import hash, rejects an already
used one, otherwise spreads the hash into the data and delegates to `create`.
The outer `Except` layer is the error thrown before any transaction exists. -/
def importData (repo : VData → Except DbError Record) (sdpOutcome : SdpOutcome)
    (data : VData) (importHash : Option String) (db : Db) :
    Except AppError CreateResult :=
  if strFalsy importHash then
    .error (.validation "importer.errors.importHashRequired")
  else if isImportHashExistent db (importHash.getD "") then
    .error (.validation "importer.errors.importHashExistent")
  else
    .ok (create repo sdpOutcome { data with importHash := importHash } db)

end VisitorService

/-! ## Auth data model -/

/-- Persisted user row (the fields the verified operations touch). -/
structure User where
  id : Nat
  email : String
  firstName : String
  emailVerified : Bool
deriving DecidableEq, Repr

/-- Durable auth database: users and their stored hashed passwords. -/
structure AuthDb where
  users : List User
  passwords : List (Nat × String)
deriving DecidableEq, Repr

/-- Embeds `UserRepository.findByEmail`. -/
def findUserByEmail (db : AuthDb) (email : String) : Option User :=
  db.users.find? (fun u => u.email = email)

/-- Embeds `UserRepository.findById`. -/
def findUserById (db : AuthDb) (id : Nat) : Option User :=
  db.users.find? (fun u => u.id = id)

/-- Embeds `UserRepository.findPassword`. -/
def findPassword (db : AuthDb) (id : Nat) : Option String :=
  (db.passwords.find? (fun p => p.1 = id)).map (fun p => p.2)

/-- Fresh id for `UserRepository.createFromAuth`. -/
def freshUserId (db : AuthDb) : Nat :=
  (db.users.map User.id).foldr max 0 + 1

/-- Embeds `UserRepository.updatePassword` on the transaction's view. -/
def updatePassword (db : AuthDb) (id : Nat) (hashed : String) : AuthDb :=
  { db with passwords := (id, hashed) :: db.passwords.filter (fun p => p.1 ≠ id) }

/-- Embeds `UserRepository.createFromAuth` on the transaction's view: inserts
a fresh, unverified user with the given first name, email and password hash. -/
def createFromAuth (db : AuthDb) (firstName email hashed : String) :
    User × AuthDb :=
  let u : User :=
    { id := freshUserId db, email := email, firstName := firstName,
      emailVerified := false }
  (u, { users := db.users ++ [u], passwords := (u.id, hashed) :: db.passwords })

/-- Runtime configuration read through `getConfig()`. -/
structure AuthConfig where
  jwtSecret : String
  jwtExpiresIn : String
  tenantMode : String
deriving DecidableEq, Repr

/-- Signed bearer token issued by `jwt.sign`: the payload object is exactly
the single-field record carrying the user id, and the token records the
signing secret and the expiry bound it was issued with. -/
structure Token where
  payloadId : Nat
  secret : String
  expiresIn : String
deriving DecidableEq, Repr

/-- Embeds `jwt.sign` with payload carrying only the id, the configured
secret and the configured expiry. -/
def jwtSign (id : Nat) (cfg : AuthConfig) : Token :=
  { payloadId := id, secret := cfg.jwtSecret, expiresIn := cfg.jwtExpiresIn }

/-- Embeds `jwt.verify`: fails closed unless the token was signed with the
configured secret and is not expired (`expired` is the clock oracle); on
success yields the decoded id. -/
def jwtVerify (cfg : AuthConfig) (expired : Bool) (token : Token) :
    Except AppError Nat :=
  if token.secret == cfg.jwtSecret && !expired then .ok token.payloadId
  else .error .jwtError

/-! ## Onboarding -/

/-- Observable calls `handleOnboard` makes to its collaborators. -/
inductive OnboardEvent where
  | invitationAccepted (token : String)
  | invitationFailureLogged (token : String)
  | joinWithDefaultRolesOrAskApproval (tenantId : String) (roles : List String)
  | joinDefaultUsingInvitedEmail
  | createOrJoinDefault (roles : List String)
deriving DecidableEq, Repr

/-- Failure oracles for the collaborators `handleOnboard` calls:
`TenantUserRepository.acceptInvitation` and the three `TenantService`
entry points. -/
structure OnboardOracles where
  acceptInvitationFails : Bool
  multiJoinFail : Option AppError
  singleInvitedJoinFail : Option AppError
  singleCreateOrJoinFail : Option AppError
deriving Repr

namespace AuthService

/-- Embeds `AuthService.handleOnboard`: accepts a pending invitation when a
token is present, swallowing and logging any failure of that step; then, in
multi-tenant mode with a tenant id, joins that tenant with default roles
`visitor`; in single-tenant mode, auto-joins via invited email and creates or
joins the default tenant with roles `visitor`.  Returns the collaborator
calls made, or the first propagated failure. -/
def handleOnboard (cfg : AuthConfig) (ob : OnboardOracles)
    (invitationToken tenantId : Option String) :
    Except AppError (List OnboardEvent) :=
  let invEvents : List OnboardEvent :=
    if strFalsy invitationToken then []
    else if ob.acceptInvitationFails then
      [.invitationFailureLogged (invitationToken.getD "")]
    else
      [.invitationAccepted (invitationToken.getD "")]
  let isMultiTenantViaSubdomain :=
    (cfg.tenantMode == "multi" || cfg.tenantMode == "multi-with-subdomain")
      && !(strFalsy tenantId)
  let multiStep : Except AppError (List OnboardEvent) :=
    if isMultiTenantViaSubdomain then
      match ob.multiJoinFail with
      | some e => .error e
      | none =>
          .ok [.joinWithDefaultRolesOrAskApproval (tenantId.getD "") ["visitor"]]
    else .ok []
  let singleStep : Except AppError (List OnboardEvent) :=
    if cfg.tenantMode == "single" then
      match ob.singleInvitedJoinFail with
      | some e => .error e
      | none =>
          match ob.singleCreateOrJoinFail with
          | some e => .error e
          | none => .ok [.joinDefaultUsingInvitedEmail, .createOrJoinDefault ["visitor"]]
    else .ok []
  match multiStep with
  | .error e => .error e
  | .ok evs1 =>
      match singleStep with
      | .error e => .error e
      | .ok evs2 => .ok (invEvents ++ evs1 ++ evs2)

/-- Result of a transactional auth operation: the token or propagated error,
the terminal state of the unit of work, the durable auth database afterwards,
and the onboarding collaborator calls observed on the success path. -/
structure AuthOpResult where
  result : Except AppError Token
  tx : TxState
  db : AuthDb
  events : List OnboardEvent
deriving Repr

/-- Body of `AuthService.signin` (the `try` block): looks the user up by
email, requires a stored credential, compares the submitted password with the
bcrypt oracle `compare`, runs onboarding and signs a token over the user id. -/
def signinBody (cfg : AuthConfig) (compare : String → String → Bool)
    (ob : OnboardOracles) (email password : String)
    (invitationToken tenantId : Option String) (db : AuthDb) :
    Except AppError (Token × List OnboardEvent) :=
  match findUserByEmail db email with
  | none => .error (.validation "auth.userNotFound")
  | some user =>
      match findPassword db user.id with
      | none => .error (.validation "auth.wrongPassword")
      | some currentPassword =>
          if !(compare password currentPassword) then
            .error (.validation "auth.wrongPassword")
          else
            match handleOnboard cfg ob invitationToken tenantId with
            | .error e => .error e
            | .ok evs => .ok (jwtSign user.id cfg, evs)

/-- Embeds `AuthService.signin`: opens a unit of work, runs the body, commits
and returns the token on success, rolls back and rethrows on failure. -/
def signin (cfg : AuthConfig) (compare : String → String → Bool)
    (ob : OnboardOracles) (email password : String)
    (invitationToken tenantId : Option String) (db : AuthDb) : AuthOpResult :=
  match signinBody cfg compare ob email password invitationToken tenantId db with
  | .ok (tok, evs) => { result := .ok tok, tx := .committed, db := db, events := evs }
  | .error e => { result := .error e, tx := .rolledBack, db := db, events := [] }

/-- Failure oracles for the collaborators `signup` calls besides onboarding. -/
structure SignupOracles where
  emailConfigured : Bool
  updatePasswordFail : Option AppError
  createFromAuthFail : Option AppError
  sendVerificationFail : Option AppError
deriving Repr

/-- Body of `AuthService.signup` (the `try` block): hashes the password with
the bcrypt oracle `hashFn`; if the email belongs to an invited user without a
password, sets the password, otherwise rejects a second signup; for an unknown
email creates the user from the auth data with first name derived from the
email; in both branches optionally sends the verification email, runs
onboarding and signs a token over the user id. -/
def signupBody (cfg : AuthConfig) (hashFn : String → String)
    (so : SignupOracles) (ob : OnboardOracles) (email password : String)
    (invitationToken tenantId : Option String) (db : AuthDb) :
    Except AppError (Token × AuthDb × List OnboardEvent) :=
  let hashedPassword := hashFn password
  match findUserByEmail db email with
  | some existingUser =>
      match findPassword db existingUser.id with
      | some _ => .error (.validation "auth.emailAlreadyInUse")
      | none =>
          match so.updatePasswordFail with
          | some e => .error e
          | none =>
              let db1 := updatePassword db existingUser.id hashedPassword
              match (if so.emailConfigured then so.sendVerificationFail else none) with
              | some e => .error e
              | none =>
                  match handleOnboard cfg ob invitationToken tenantId with
                  | .error e => .error e
                  | .ok evs => .ok (jwtSign existingUser.id cfg, db1, evs)
  | none =>
      match so.createFromAuthFail with
      | some e => .error e
      | none =>
          let (newUser, db1) :=
            createFromAuth db ((email.splitOn "@").headD "") email hashedPassword
          match (if so.emailConfigured then so.sendVerificationFail else none) with
          | some e => .error e
          | none =>
              match handleOnboard cfg ob invitationToken tenantId with
              | .error e => .error e
              | .ok evs => .ok (jwtSign newUser.id cfg, db1, evs)

/-- Embeds `AuthService.signup`: opens a unit of work, runs the body, commits
and returns the token on success, rolls back and rethrows on failure. -/
def signup (cfg : AuthConfig) (hashFn : String → String)
    (so : SignupOracles) (ob : OnboardOracles) (email password : String)
    (invitationToken tenantId : Option String) (db : AuthDb) : AuthOpResult :=
  match signupBody cfg hashFn so ob email password invitationToken tenantId db with
  | .ok (tok, db1, evs) =>
      { result := .ok tok, tx := .committed, db := db1, events := evs }
  | .error e => { result := .error e, tx := .rolledBack, db := db, events := [] }

/-- Embeds `AuthService.findByToken`: verifies the token, looks the decoded
id up, and when the email sender is not configured forces `emailVerified` on
the user it returns. -/
def findByToken (cfg : AuthConfig) (expired emailConfigured : Bool)
    (token : Token) (db : AuthDb) : Except AppError (Option User) :=
  match jwtVerify cfg expired token with
  | .error e => .error e
  | .ok id =>
      match findUserById db id with
      | some user =>
          .ok (some (if !emailConfigured then { user with emailVerified := true } else user))
      | none => .ok none

end AuthService

/-- Plain success test on a service result. -/
def isSuccess {α : Type} : Except AppError α → Bool
  | .ok _ => true
  | .error _ => false

/-! ## Concrete fixtures for the witnesses -/

/-- Configuration fixture: multi-tenant mode. -/
def cfgW : AuthConfig :=
  { jwtSecret := "s3cret", jwtExpiresIn := "7 days", tenantMode := "multi" }

/-- Configuration fixture: single-tenant mode. -/
def cfgSingleW : AuthConfig :=
  { jwtSecret := "s3cret", jwtExpiresIn := "7 days", tenantMode := "single" }

/-- Onboarding oracle fixture where no collaborator fails. -/
def obOkW : OnboardOracles :=
  { acceptInvitationFails := false, multiJoinFail := none,
    singleInvitedJoinFail := none, singleCreateOrJoinFail := none }

/-- User fixture: invited user without a stored credential. -/
def userAW : User :=
  { id := 1, email := "a@x.com", firstName := "a", emailVerified := false }

/-- User fixture: fully signed-up user. -/
def userBW : User :=
  { id := 2, email := "b@x.com", firstName := "b", emailVerified := false }

/-- Auth database fixture: `userAW` has no password, `userBW` has one. -/
def authDbW : AuthDb :=
  { users := [userAW, userBW], passwords := [(2, "pw")] }

/-- Bcrypt comparison fixture: the stored hash is the plain password itself. -/
def cmpW : String → String → Bool := fun plain hashed => plain == hashed

/-! ## C1 — uniformity of the signin failure signal -/

/-- C1 (counterexample): two failing `signin` calls — one with an unknown
email, one with a known email and a wrong password — produce `Error400`s with
different message keys (`auth.userNotFound` vs `auth.wrongPassword`), so the
failure signal is not uniform and does reveal whether the account exists. -/
theorem signin_failure_not_uniform :
    (AuthService.signin cfgW cmpW obOkW "ghost@x.com" "pw" none none authDbW).result
        = .error (.validation "auth.userNotFound")
    ∧ (AuthService.signin cfgW cmpW obOkW "b@x.com" "wrong" none none authDbW).result
        = .error (.validation "auth.wrongPassword")
    ∧ AppError.validation "auth.userNotFound"
        ≠ AppError.validation "auth.wrongPassword" :=
  ⟨rfl, rfl, by decide⟩

/-- C1 (amended): a failed `signin` signals `Error400` with message key
`auth.userNotFound` when the subject is unknown, and with the single key
`auth.wrongPassword` both when the stored credential is missing and when the
password does not match — so the two credential failures are mutually
indistinguishable, but the unknown-subject failure carries different content
than they do. -/
theorem signin_failure_messages
    (cfg : AuthConfig) (compare : String → String → Bool) (ob : OnboardOracles)
    (e1 p1 e2 p2 e3 p3 : String) (inv tid : Option String) (db : AuthDb)
    (u2 u3 : User) (pw3 : String)
    (h1 : findUserByEmail db e1 = none)
    (h2 : findUserByEmail db e2 = some u2)
    (h2p : findPassword db u2.id = none)
    (h3 : findUserByEmail db e3 = some u3)
    (h3p : findPassword db u3.id = some pw3)
    (h3c : compare p3 pw3 = false) :
    (AuthService.signin cfg compare ob e1 p1 inv tid db).result
        = .error (.validation "auth.userNotFound")
    ∧ (AuthService.signin cfg compare ob e2 p2 inv tid db).result
        = .error (.validation "auth.wrongPassword")
    ∧ (AuthService.signin cfg compare ob e3 p3 inv tid db).result
        = .error (.validation "auth.wrongPassword") := by
  refine ⟨?_, ?_, ?_⟩ <;>
    simp [AuthService.signin, AuthService.signinBody, h1, h2, h2p, h3, h3p, h3c]

/-- C1 (witness): the amended statement applied to the concrete fixture
database, covering all three failure classes at once. -/
theorem signin_failure_messages_witness :
    (AuthService.signin cfgW cmpW obOkW "ghost@x.com" "p" none none authDbW).result
        = .error (.validation "auth.userNotFound")
    ∧ (AuthService.signin cfgW cmpW obOkW "a@x.com" "p" none none authDbW).result
        = .error (.validation "auth.wrongPassword")
    ∧ (AuthService.signin cfgW cmpW obOkW "b@x.com" "wrong" none none authDbW).result
        = .error (.validation "auth.wrongPassword") :=
  signin_failure_messages cfgW cmpW obOkW
    "ghost@x.com" "p" "a@x.com" "p" "b@x.com" "wrong" none none authDbW
    userAW userBW "pw" rfl rfl rfl rfl rfl rfl

/-! ## C8 — email verification bypass in findByToken -/

/-- C8: for a token signed with the configured secret and not expired, whose
decoded id resolves to an existing user, `findByToken` with no configured
email sender returns that user with `emailVerified` forced to `true`,
whatever the stored verification status was. -/
theorem findByToken_forces_emailVerified
    (cfg : AuthConfig) (token : Token) (db : AuthDb) (user : User)
    (hsec : token.secret = cfg.jwtSecret)
    (huser : findUserById db token.payloadId = some user) :
    AuthService.findByToken cfg false false token db
      = .ok (some { user with emailVerified := true }) := by
  simp [AuthService.findByToken, jwtVerify, hsec, huser]

/-- C8 (witness): concrete run on a user whose stored status is unverified. -/
theorem findByToken_forces_emailVerified_witness :
    AuthService.findByToken cfgW false false (jwtSign 2 cfgW) authDbW
      = .ok (some { userBW with emailVerified := true }) :=
  findByToken_forces_emailVerified cfgW (jwtSign 2 cfgW) authDbW userBW rfl rfl

/-! ## C2 — atomicity of destroyAll -/

/-- When no deletion fails, the loop succeeds, leaves base and state alone,
and its final view holds exactly the rows whose id is not among `ids`. -/
theorem destroyLoop_ok_of_none (failing : Nat → Option DbError) :
    ∀ (ids : List Nat), (∀ id ∈ ids, failing id = none) → ∀ tx : Tx,
      ∃ tx', VisitorService.destroyLoop failing ids tx = .ok tx'
        ∧ tx'.base = tx.base ∧ tx'.state = tx.state
        ∧ ∀ r : Record, r ∈ tx'.view.rows ↔ r ∈ tx.view.rows ∧ r.id ∉ ids := by
  intro ids
  induction ids with
  | nil =>
      intro _ tx
      exact ⟨tx, rfl, rfl, rfl, by simp⟩
  | cons id rest ih =>
      intro h tx
      have hid : failing id = none := h id (by simp)
      have hrest : ∀ i ∈ rest, failing i = none := fun i hi => h i (by simp [hi])
      obtain ⟨tx', heq, hbase, hstate, hview⟩ :=
        ih hrest { tx with view := ⟨tx.view.rows.filter (fun r => r.id ≠ id)⟩ }
      refine ⟨tx', ?_, hbase, hstate, ?_⟩
      · simpa [VisitorService.destroyLoop, hid] using heq
      · intro r
        rw [hview r]
        simp [List.mem_filter]
        tauto

/-- When some id in the list has a failing deletion, the loop fails. -/
theorem destroyLoop_error_of_some (failing : Nat → Option DbError) :
    ∀ (ids : List Nat), (∃ id ∈ ids, failing id ≠ none) → ∀ tx : Tx,
      ∃ e, VisitorService.destroyLoop failing ids tx = .error e := by
  intro ids
  induction ids with
  | nil => rintro ⟨_, h, _⟩; simp at h
  | cons id rest ih =>
      rintro ⟨i, hi, hfail⟩ tx
      rcases List.mem_cons.mp hi with hhead | htail
      · subst hhead
        rcases hf : failing i with _ | e
        · exact absurd hf hfail
        · exact ⟨e, by simp [VisitorService.destroyLoop, hf]⟩
      · rcases hf : failing id with _ | e
        · obtain ⟨e', he'⟩ :=
            ih ⟨i, htail, hfail⟩ { tx with view := ⟨tx.view.rows.filter (fun r => r.id ≠ id)⟩ }
          exact ⟨e', by simpa [VisitorService.destroyLoop, hf] using he'⟩
        · exact ⟨e, by simp [VisitorService.destroyLoop, hf]⟩

/-- C2: `destroyAll` is atomic — for every id list and every injected
repository failure pattern, either every deletion succeeds and the single
unit of work commits with exactly the rows whose id is in `ids` removed,
or some deletion fails and the unit of work rolls back with the database
exactly as before; a partially deleted state is never the outcome. -/
theorem destroyAll_atomic (failing : Nat → Option DbError) (ids : List Nat)
    (db : Db) :
    ((VisitorService.destroyAll failing ids db).tx = .committed
      ∧ (VisitorService.destroyAll failing ids db).result = .ok ()
      ∧ (∀ r : Record, r ∈ (VisitorService.destroyAll failing ids db).db.rows
            ↔ r ∈ db.rows ∧ r.id ∉ ids)
      ∧ ∀ id ∈ ids, failing id = none)
    ∨ ((VisitorService.destroyAll failing ids db).tx = .rolledBack
      ∧ (∃ e, (VisitorService.destroyAll failing ids db).result
            = .error (.dbError e))
      ∧ (VisitorService.destroyAll failing ids db).db = db
      ∧ ∃ id ∈ ids, failing id ≠ none) := by
  by_cases h : ∀ id ∈ ids, failing id = none
  · left
    obtain ⟨tx', heq, hbase, hstate, hview⟩ :=
      destroyLoop_ok_of_none failing ids h (createTransaction db)
    simp only [createTransaction] at heq hview
    refine ⟨?_, ?_, ?_, h⟩
    · simp [VisitorService.destroyAll, createTransaction, heq, commitTransaction]
    · simp [VisitorService.destroyAll, createTransaction, heq, commitTransaction]
    · intro r
      simp only [VisitorService.destroyAll, createTransaction, heq, commitTransaction]
      exact hview r
  · right
    push_neg at h
    obtain ⟨e, heq⟩ := destroyLoop_error_of_some failing ids h (createTransaction db)
    simp only [createTransaction] at heq
    refine ⟨?_, ⟨e, ?_⟩, ?_, h⟩
    · simp [VisitorService.destroyAll, createTransaction, heq, rollbackTransaction]
    · simp [VisitorService.destroyAll, createTransaction, heq, rollbackTransaction]
    · simp [VisitorService.destroyAll, createTransaction, heq, rollbackTransaction]

/-- C2 (witness): a concrete run with no failing deletion commits, and a
concrete run with a deletion failing on the second id rolls back leaving the
database untouched. -/
theorem destroyAll_atomic_witness :
    (VisitorService.destroyAll (fun _ => none) [1, 2]
        ⟨[⟨1, "a", none⟩, ⟨2, "b", none⟩]⟩).tx = .committed
    ∧ (VisitorService.destroyAll
        (fun id => if id = 2 then some (.other "boom") else none) [1, 2]
        ⟨[⟨1, "a", none⟩, ⟨2, "b", none⟩]⟩).tx = .rolledBack
    ∧ (VisitorService.destroyAll
        (fun id => if id = 2 then some (.other "boom") else none) [1, 2]
        ⟨[⟨1, "a", none⟩, ⟨2, "b", none⟩]⟩).db
      = ⟨[⟨1, "a", none⟩, ⟨2, "b", none⟩]⟩ := by
  refine ⟨?_, ?_, ?_⟩
  · rcases destroyAll_atomic (fun _ => none) [1, 2]
      ⟨[⟨1, "a", none⟩, ⟨2, "b", none⟩]⟩ with h | h
    · exact h.1
    · exact absurd h.2.2.2 (by decide)
  · rcases destroyAll_atomic
      (fun id => if id = 2 then some (.other "boom") else none) [1, 2]
      ⟨[⟨1, "a", none⟩, ⟨2, "b", none⟩]⟩ with h | h
    · exact absurd (h.2.2.2 2 (by decide)) (by decide)
    · exact h.1
  · rcases destroyAll_atomic
      (fun id => if id = 2 then some (.other "boom") else none) [1, 2]
      ⟨[⟨1, "a", none⟩, ⟨2, "b", none⟩]⟩ with h | h
    · exact absurd (h.2.2.2 2 (by decide)) (by decide)
    · exact h.2.2.1

/-! ## C3 — import guards and delegation -/

/-- C3: `import` rejects an absent (null or empty) import hash with the
`import hash is required` validation error whatever the data is; rejects a
hash for which a record already exists (`count > 0`) with the
`data already imported` validation error whatever the data is; and otherwise
returns exactly `create` applied to the data with the hash attached. -/
theorem importData_guards_and_delegation
    (repo : VData → Except DbError Record) (o : SdpOutcome)
    (data : VData) (importHash : Option String) (db : Db) :
    (strFalsy importHash = true →
        VisitorService.importData repo o data importHash db
            = .error (.validation "importer.errors.importHashRequired")
          ∧ enTranslation "importer.errors.importHashRequired"
            = some "Import hash is required")
    ∧ (strFalsy importHash = false →
        0 < VisitorService.count db (importHash.getD "") →
        VisitorService.importData repo o data importHash db
            = .error (.validation "importer.errors.importHashExistent")
          ∧ enTranslation "importer.errors.importHashExistent"
            = some "Data has already been imported")
    ∧ (strFalsy importHash = false →
        VisitorService.count db (importHash.getD "") = 0 →
        VisitorService.importData repo o data importHash db
            = .ok (VisitorService.create repo o
                { data with importHash := importHash } db)) := by
  refine ⟨fun h => ⟨?_, rfl⟩, fun h1 h2 => ⟨?_, rfl⟩, fun h1 h2 => ?_⟩
  · simp [VisitorService.importData, h]
  · simp [VisitorService.importData, VisitorService.isImportHashExistent, h1, h2]
  · simp [VisitorService.importData, VisitorService.isImportHashExistent, h1, h2]

/-- C3 (witness): the three guards on a concrete database that already holds
a record imported under hash `H1` — an absent hash is rejected, re-importing
under `H1` is rejected even with different data, and a fresh hash delegates
to `create`. -/
theorem importData_guards_and_delegation_witness :
    (VisitorService.importData (fun d => .ok ⟨7, d.payload, d.importHash⟩)
        .delivered ⟨"v1", none⟩ none ⟨[⟨1, "old", some "H1"⟩]⟩
          = .error (.validation "importer.errors.importHashRequired")
        ∧ enTranslation "importer.errors.importHashRequired"
          = some "Import hash is required")
    ∧ (VisitorService.importData (fun d => .ok ⟨7, d.payload, d.importHash⟩)
        .delivered ⟨"different data", none⟩ (some "H1") ⟨[⟨1, "old", some "H1"⟩]⟩
          = .error (.validation "importer.errors.importHashExistent")
        ∧ enTranslation "importer.errors.importHashExistent"
          = some "Data has already been imported")
    ∧ VisitorService.importData (fun d => .ok ⟨7, d.payload, d.importHash⟩)
        .delivered ⟨"v1", none⟩ (some "H2") ⟨[⟨1, "old", some "H1"⟩]⟩
          = .ok (VisitorService.create (fun d => .ok ⟨7, d.payload, d.importHash⟩)
              .delivered ⟨"v1", some "H2"⟩ ⟨[⟨1, "old", some "H1"⟩]⟩) :=
  ⟨(importData_guards_and_delegation _ _ ⟨"v1", none⟩ none _).1 rfl,
   (importData_guards_and_delegation _ _ ⟨"different data", none⟩ (some "H1")
      ⟨[⟨1, "old", some "H1"⟩]⟩).2.1 rfl (by decide),
   (importData_guards_and_delegation _ _ ⟨"v1", none⟩ (some "H2")
      ⟨[⟨1, "old", some "H1"⟩]⟩).2.2 rfl (by decide)⟩

/-! ## C4 — transactional create/update with error translation -/

/-- C4: `create` and `update` share one contract — on repository success the
unit of work commits and the persisted record is returned; on a uniqueness
violation the unit of work rolls back, the durable state is untouched, and
the failure is re-signalled as a `ValidationError` with a field-specific
localized message; on any other failure the unit of work rolls back and the
original failure is re-signalled unchanged. -/
theorem create_update_error_translation
    (repoC : VData → Except DbError Record)
    (repoU : Nat → VData → Except DbError Record)
    (o : SdpOutcome) (data udata : VData) (id : Nat) (db : Db) :
    ((∀ rec, repoC data = .ok rec →
        (VisitorService.create repoC o data db).result = .ok rec
          ∧ (VisitorService.create repoC o data db).tx = .committed
          ∧ (VisitorService.create repoC o data db).db.rows = db.rows ++ [rec])
      ∧ (∀ f, repoC data = .error (.uniqueViolation f) →
          (VisitorService.create repoC o data db).result
              = .error (.validation ("entities.visitor.errors.unique." ++ f))
            ∧ (VisitorService.create repoC o data db).tx = .rolledBack
            ∧ (VisitorService.create repoC o data db).db = db)
      ∧ (∀ m, repoC data = .error (.other m) →
          (VisitorService.create repoC o data db).result
              = .error (.dbError (.other m))
            ∧ (VisitorService.create repoC o data db).tx = .rolledBack
            ∧ (VisitorService.create repoC o data db).db = db))
    ∧ ((∀ rec, repoU id udata = .ok rec →
        (VisitorService.update repoU id udata db).result = .ok rec
          ∧ (VisitorService.update repoU id udata db).tx = .committed)
      ∧ (∀ f, repoU id udata = .error (.uniqueViolation f) →
          (VisitorService.update repoU id udata db).result
              = .error (.validation ("entities.visitor.errors.unique." ++ f))
            ∧ (VisitorService.update repoU id udata db).tx = .rolledBack
            ∧ (VisitorService.update repoU id udata db).db = db)
      ∧ (∀ m, repoU id udata = .error (.other m) →
          (VisitorService.update repoU id udata db).result
              = .error (.dbError (.other m))
            ∧ (VisitorService.update repoU id udata db).tx = .rolledBack
            ∧ (VisitorService.update repoU id udata db).db = db)) := by
  refine ⟨⟨fun rec h => ?_, fun f h => ?_, fun m h => ?_⟩,
          ⟨fun rec h => ?_, fun f h => ?_, fun m h => ?_⟩⟩ <;>
    simp [VisitorService.create, VisitorService.update, h, handleUniqueFieldError,
      createTransaction, commitTransaction, rollbackTransaction]

/-- C4 (witness): the contract at concrete repository outcomes — a successful
create, a uniqueness violation on the `name` field, and an unclassified
failure. -/
theorem create_update_error_translation_witness :
    ((VisitorService.create (fun _ => .ok ⟨7, "v", none⟩) .delivered
        ⟨"v", none⟩ ⟨[]⟩).result = .ok ⟨7, "v", none⟩
      ∧ (VisitorService.create (fun _ => .ok ⟨7, "v", none⟩) .delivered
          ⟨"v", none⟩ ⟨[]⟩).tx = .committed
      ∧ (VisitorService.create (fun _ => .ok ⟨7, "v", none⟩) .delivered
          ⟨"v", none⟩ ⟨[]⟩).db.rows = [] ++ [⟨7, "v", none⟩])
    ∧ ((VisitorService.update (fun _ _ => .error (.uniqueViolation "name")) 3
        ⟨"v", none⟩ ⟨[⟨3, "w", none⟩]⟩).result
          = .error (.validation ("entities.visitor.errors.unique." ++ "name"))
      ∧ (VisitorService.update (fun _ _ => .error (.uniqueViolation "name")) 3
          ⟨"v", none⟩ ⟨[⟨3, "w", none⟩]⟩).tx = .rolledBack
      ∧ (VisitorService.update (fun _ _ => .error (.uniqueViolation "name")) 3
          ⟨"v", none⟩ ⟨[⟨3, "w", none⟩]⟩).db = ⟨[⟨3, "w", none⟩]⟩)
    ∧ ((VisitorService.create (fun _ => .error (.other "disk full")) .delivered
        ⟨"v", none⟩ ⟨[]⟩).result = .error (.dbError (.other "disk full"))
      ∧ (VisitorService.create (fun _ => .error (.other "disk full")) .delivered
          ⟨"v", none⟩ ⟨[]⟩).tx = .rolledBack
      ∧ (VisitorService.create (fun _ => .error (.other "disk full")) .delivered
          ⟨"v", none⟩ ⟨[]⟩).db = ⟨[]⟩) :=
  ⟨(create_update_error_translation (fun _ => .ok ⟨7, "v", none⟩)
      (fun _ _ => .ok ⟨7, "v", none⟩) .delivered ⟨"v", none⟩ ⟨"v", none⟩ 3
      ⟨[]⟩).1.1 ⟨7, "v", none⟩ rfl,
   (create_update_error_translation (fun _ => .ok ⟨7, "v", none⟩)
      (fun _ _ => .error (.uniqueViolation "name")) .delivered ⟨"v", none⟩
      ⟨"v", none⟩ 3 ⟨[⟨3, "w", none⟩]⟩).2.2.1 "name" rfl,
   (create_update_error_translation (fun _ => .error (.other "disk full"))
      (fun _ _ => .ok ⟨7, "v", none⟩) .delivered ⟨"v", none⟩ ⟨"v", none⟩ 3
      ⟨[]⟩).1.2.2 "disk full" rfl⟩

/-! ## C5 — one unit of work, one terminal state -/

/-- C5: every transactional service operation — `create`, `update`,
`destroyAll`, `signup`, `signin` — drives its single unit of work to exactly
one terminal state before returning or rethrowing: committed exactly when the
operation succeeds, rolled back exactly when it fails, never left active. -/
theorem transactional_terminal_state
    (repoC : VData → Except DbError Record)
    (repoU : Nat → VData → Except DbError Record)
    (o : SdpOutcome) (data udata : VData) (id : Nat) (db : Db)
    (failing : Nat → Option DbError) (ids : List Nat)
    (cfg : AuthConfig) (hashFn : String → String)
    (compare : String → String → Bool)
    (so : AuthService.SignupOracles) (ob : OnboardOracles)
    (email password : String) (inv tid : Option String) (adb : AuthDb) :
    (VisitorService.create repoC o data db).tx
        = (if isSuccess (VisitorService.create repoC o data db).result
           then TxState.committed else TxState.rolledBack)
    ∧ (VisitorService.update repoU id udata db).tx
        = (if isSuccess (VisitorService.update repoU id udata db).result
           then TxState.committed else TxState.rolledBack)
    ∧ (VisitorService.destroyAll failing ids db).tx
        = (if isSuccess (VisitorService.destroyAll failing ids db).result
           then TxState.committed else TxState.rolledBack)
    ∧ (AuthService.signup cfg hashFn so ob email password inv tid adb).tx
        = (if isSuccess
              (AuthService.signup cfg hashFn so ob email password inv tid adb).result
           then TxState.committed else TxState.rolledBack)
    ∧ (AuthService.signin cfg compare ob email password inv tid adb).tx
        = (if isSuccess
              (AuthService.signin cfg compare ob email password inv tid adb).result
           then TxState.committed else TxState.rolledBack) := by
  refine ⟨?_, ?_, ?_, ?_, ?_⟩
  · rcases h : repoC data with e | rec <;>
      simp [VisitorService.create, h, isSuccess, createTransaction,
        commitTransaction, rollbackTransaction]
  · rcases h : repoU id udata with e | rec <;>
      simp [VisitorService.update, h, isSuccess, createTransaction,
        commitTransaction, rollbackTransaction]
  · rcases h : VisitorService.destroyLoop failing ids (createTransaction db)
      with e | tx1 <;>
      simp [VisitorService.destroyAll, h, isSuccess, commitTransaction,
        rollbackTransaction]
  · rcases h : AuthService.signupBody cfg hashFn so ob email password inv tid adb
      with e | ⟨tok, db1, evs⟩ <;>
      simp [AuthService.signup, h, isSuccess]
  · rcases h : AuthService.signinBody cfg compare ob email password inv tid adb
      with e | ⟨tok, evs⟩ <;>
      simp [AuthService.signin, h, isSuccess]

/-! ## C7 — fire-and-forget notification on successful create -/

/-- C7: a successful `create` fires the `sdpService` notification exactly
once, with the newly created record, and only after the unit of work has
committed; a failed `create` fires no notification; and the notification's
asynchronous outcome — delivered or failed — has no influence on the result,
the durable database, or the transaction state `create` returns, since the
call is never awaited. -/
theorem create_notifies_once_after_commit
    (repo : VData → Except DbError Record) (o o' : SdpOutcome)
    (data : VData) (db : Db) :
    (∀ rec, repo data = .ok rec →
        (VisitorService.create repo o data db).notifications = [(rec, o)])
    ∧ (∀ e, repo data = .error e →
        (VisitorService.create repo o data db).notifications = [])
    ∧ ((VisitorService.create repo o data db).notifications ≠ [] →
        (VisitorService.create repo o data db).tx = .committed)
    ∧ (VisitorService.create repo o data db).result
        = (VisitorService.create repo o' data db).result
    ∧ (VisitorService.create repo o data db).db
        = (VisitorService.create repo o' data db).db
    ∧ (VisitorService.create repo o data db).tx
        = (VisitorService.create repo o' data db).tx := by
  refine ⟨fun rec h => ?_, fun e h => ?_, ?_, ?_, ?_, ?_⟩
  · simp [VisitorService.create, h, commitTransaction]
  · simp [VisitorService.create, h, rollbackTransaction]
  all_goals
    rcases h' : repo data with e' | rec' <;>
      simp [VisitorService.create, h', commitTransaction, rollbackTransaction]

/-- C7 (witness): on a concrete successful create the notification list is
exactly the created record once; on a concrete failing create it is empty. -/
theorem create_notifies_once_after_commit_witness :
    (VisitorService.create (fun _ => .ok ⟨7, "v", none⟩) .failed
        ⟨"v", none⟩ ⟨[]⟩).notifications = [(⟨7, "v", none⟩, .failed)]
    ∧ (VisitorService.create (fun _ => .error (.other "down")) .delivered
        ⟨"v", none⟩ ⟨[]⟩).notifications = [] :=
  ⟨(create_notifies_once_after_commit (fun _ => .ok ⟨7, "v", none⟩) .failed
      .delivered ⟨"v", none⟩ ⟨[]⟩).1 ⟨7, "v", none⟩ rfl,
   (create_notifies_once_after_commit (fun _ => .error (.other "down"))
      .delivered .failed ⟨"v", none⟩ ⟨[]⟩).2.1 (.other "down") rfl⟩

/-! ## C6 — token payload carries only the user id -/

/-- Signup oracle fixture: no email sender, no collaborator failures. -/
def soW : AuthService.SignupOracles :=
  { emailConfigured := false, updatePasswordFail := none,
    createFromAuthFail := none, sendVerificationFail := none }

/-- Bcrypt hash fixture. -/
def hashW : String → String := fun s => "h:" ++ s

/-- Success inversion for `signinBody`: a token is only produced for the user
found by email, and is exactly `jwtSign` of that user's id. -/
theorem signinBody_ok_inv
    (cfg : AuthConfig) (compare : String → String → Bool) (ob : OnboardOracles)
    (email password : String) (inv tid : Option String) (db : AuthDb)
    (tok : Token) (evs : List OnboardEvent)
    (h : AuthService.signinBody cfg compare ob email password inv tid db
          = .ok (tok, evs)) :
    ∃ user, findUserByEmail db email = some user ∧ tok = jwtSign user.id cfg := by
  rcases hu : findUserByEmail db email with _ | user
  · simp [AuthService.signinBody, hu] at h
  · rcases hp : findPassword db user.id with _ | pw
    · simp [AuthService.signinBody, hu, hp] at h
    · by_cases hc : compare password pw
      · rcases ho : AuthService.handleOnboard cfg ob inv tid with e | evs'
        · simp [AuthService.signinBody, hu, hp, hc, ho] at h
        · simp [AuthService.signinBody, hu, hp, hc, ho] at h
          exact ⟨user, rfl, h.1.symm⟩
      · simp [AuthService.signinBody, hu, hp, hc] at h

/-- Success inversion for `signupBody`: the token is `jwtSign` of the
existing user's id when the email was already known, and of the freshly
created user's id otherwise. -/
theorem signupBody_ok_inv
    (cfg : AuthConfig) (hashFn : String → String)
    (so : AuthService.SignupOracles) (ob : OnboardOracles)
    (email password : String) (inv tid : Option String) (db : AuthDb)
    (tok : Token) (db1 : AuthDb) (evs : List OnboardEvent)
    (h : AuthService.signupBody cfg hashFn so ob email password inv tid db
          = .ok (tok, db1, evs)) :
    (∃ user, findUserByEmail db email = some user ∧ tok = jwtSign user.id cfg)
    ∨ (findUserByEmail db email = none ∧ tok = jwtSign (freshUserId db) cfg) := by
  rcases hu : findUserByEmail db email with _ | user
  · right
    refine ⟨rfl, ?_⟩
    rcases hcf : so.createFromAuthFail with _ | e
    · rcases hsv : (if so.emailConfigured then so.sendVerificationFail else none)
        with _ | e2
      · rcases ho : AuthService.handleOnboard cfg ob inv tid with e3 | evs'
        · simp [AuthService.signupBody, hu, hcf, hsv, ho, createFromAuth] at h
        · simp [AuthService.signupBody, hu, hcf, hsv, ho, createFromAuth,
            freshUserId] at h
          simp [h.1.symm, jwtSign, freshUserId]
      · simp [AuthService.signupBody, hu, hcf, hsv, createFromAuth] at h
    · simp [AuthService.signupBody, hu, hcf] at h
  · left
    rcases hp : findPassword db user.id with _ | pw
    · rcases hup : so.updatePasswordFail with _ | e
      · rcases hsv : (if so.emailConfigured then so.sendVerificationFail else none)
          with _ | e2
        · rcases ho : AuthService.handleOnboard cfg ob inv tid with e3 | evs'
          · simp [AuthService.signupBody, hu, hp, hup, hsv, ho] at h
          · simp [AuthService.signupBody, hu, hp, hup, hsv, ho] at h
            exact ⟨user, rfl, h.1.symm⟩
        · simp [AuthService.signupBody, hu, hp, hup, hsv] at h
      · simp [AuthService.signupBody, hu, hp, hup] at h
    · simp [AuthService.signupBody, hu, hp] at h

/-- C6: every successful `signin` and every successful `signup` issues the
token `jwtSign user.id cfg` — a token signed with the configured secret,
bounded by the configured expiry, whose payload is exactly the single-field
object carrying the subject's id and nothing else. -/
theorem token_carries_only_user_id
    (cfg : AuthConfig) (hashFn : String → String)
    (compare : String → String → Bool)
    (so : AuthService.SignupOracles) (ob : OnboardOracles)
    (email password : String) (inv tid : Option String) (adb : AuthDb) :
    (∀ tok, (AuthService.signin cfg compare ob email password inv tid adb).result
          = .ok tok →
        (∃ user, findUserByEmail adb email = some user ∧ tok = jwtSign user.id cfg)
        ∧ tok.secret = cfg.jwtSecret ∧ tok.expiresIn = cfg.jwtExpiresIn)
    ∧ (∀ tok, (AuthService.signup cfg hashFn so ob email password inv tid adb).result
          = .ok tok →
        ((∃ user, findUserByEmail adb email = some user ∧ tok = jwtSign user.id cfg)
          ∨ (findUserByEmail adb email = none ∧ tok = jwtSign (freshUserId adb) cfg))
        ∧ tok.secret = cfg.jwtSecret ∧ tok.expiresIn = cfg.jwtExpiresIn) := by
  constructor
  · intro tok h
    rcases hb : AuthService.signinBody cfg compare ob email password inv tid adb
      with e | ⟨tok', evs⟩
    · simp [AuthService.signin, hb] at h
    · simp [AuthService.signin, hb] at h
      subst h
      obtain ⟨user, hu, htok⟩ :=
        signinBody_ok_inv cfg compare ob email password inv tid adb tok' evs hb
      exact ⟨⟨user, hu, htok⟩, by simp [htok, jwtSign], by simp [htok, jwtSign]⟩
  · intro tok h
    rcases hb : AuthService.signupBody cfg hashFn so ob email password inv tid adb
      with e | ⟨tok', db1, evs⟩
    · simp [AuthService.signup, hb] at h
    · simp [AuthService.signup, hb] at h
      subst h
      rcases signupBody_ok_inv cfg hashFn so ob email password inv tid adb
          tok' db1 evs hb with ⟨user, hu, htok⟩ | ⟨hu, htok⟩
      · exact ⟨.inl ⟨user, hu, htok⟩, by simp [htok, jwtSign], by simp [htok, jwtSign]⟩
      · exact ⟨.inr ⟨hu, htok⟩, by simp [htok, jwtSign], by simp [htok, jwtSign]⟩

/-- C6 (witness): a concrete successful signin issues the token over the
stored user's id, and a concrete successful signup of a fresh email issues
the token over the newly created user's id. -/
theorem token_carries_only_user_id_witness :
    ((∃ user, findUserByEmail authDbW "b@x.com" = some user
        ∧ jwtSign 2 cfgW = jwtSign user.id cfgW)
      ∧ (jwtSign 2 cfgW).secret = cfgW.jwtSecret
      ∧ (jwtSign 2 cfgW).expiresIn = cfgW.jwtExpiresIn)
    ∧ (((∃ user, findUserByEmail authDbW "ghost@x.com" = some user
          ∧ jwtSign 3 cfgW = jwtSign user.id cfgW)
        ∨ (findUserByEmail authDbW "ghost@x.com" = none
          ∧ jwtSign 3 cfgW = jwtSign (freshUserId authDbW) cfgW))
      ∧ (jwtSign 3 cfgW).secret = cfgW.jwtSecret
      ∧ (jwtSign 3 cfgW).expiresIn = cfgW.jwtExpiresIn) :=
  ⟨(token_carries_only_user_id cfgW hashW cmpW soW obOkW
      "b@x.com" "pw" none none authDbW).1 (jwtSign 2 cfgW) rfl,
   (token_carries_only_user_id cfgW hashW cmpW soW obOkW
      "ghost@x.com" "pw" none none authDbW).2 (jwtSign 3 cfgW) rfl⟩

/-! ## C9 — invitation acceptance failures are swallowed -/

/-- At the `handleOnboard` level: with a non-empty invitation token whose
acceptance fails, the run merely logs the failure and then proceeds exactly
as the run with no invitation token at all. -/
theorem handleOnboard_invitation_failure (cfg : AuthConfig)
    (ob : OnboardOracles) (t : String) (tid : Option String) (ht : t ≠ "") :
    AuthService.handleOnboard cfg { ob with acceptInvitationFails := true }
        (some t) tid
      = (AuthService.handleOnboard cfg ob none tid).map
          (fun evs => .invitationFailureLogged t :: evs) := by
  have hf : strFalsy (some t) = false := by simp [strFalsy, ht]
  have hnone : strFalsy none = true := rfl
  rcases ob with ⟨ai, mj, s1, s2⟩
  rcases mj with _ | e1 <;> rcases s1 with _ | e2 <;> rcases s2 with _ | e3 <;>
    by_cases h1 : (cfg.tenantMode = "multi"
        ∨ cfg.tenantMode = "multi-with-subdomain") ∧ strFalsy tid = false <;>
      by_cases h2 : cfg.tenantMode = "single" <;>
        simp [AuthService.handleOnboard, hf, hnone, h1, h2, Except.map]

/-- Lifting of the previous fact through `signinBody`: the body with a
failing invitation acceptance produces the same outcome as the body without
an invitation, with the logged failure prepended to the events. -/
theorem signinBody_invitation_failure (cfg : AuthConfig)
    (compare : String → String → Bool) (ob : OnboardOracles)
    (email password : String) (tid : Option String) (adb : AuthDb)
    (t : String) (ht : t ≠ "") :
    AuthService.signinBody cfg compare { ob with acceptInvitationFails := true }
        email password (some t) tid adb
      = (AuthService.signinBody cfg compare ob email password none tid adb).map
          (fun p => (p.1, OnboardEvent.invitationFailureLogged t :: p.2)) := by
  have hon := handleOnboard_invitation_failure cfg ob t tid ht
  rcases hu : findUserByEmail adb email with _ | user
  · simp [AuthService.signinBody, hu, Except.map]
  · rcases hp : findPassword adb user.id with _ | pw
    · simp [AuthService.signinBody, hu, hp, Except.map]
    · by_cases hc : compare password pw
      · rcases ho : AuthService.handleOnboard cfg ob none tid with e | evs'
        · rw [ho] at hon
          simp [AuthService.signinBody, hu, hp, hc, ho, hon, Except.map]
        · rw [ho] at hon
          simp [AuthService.signinBody, hu, hp, hc, ho, hon, Except.map]
      · simp [AuthService.signinBody, hu, hp, hc, Except.map]

/-- Lifting through `signupBody`, in both the invited-user and the new-user
branch. -/
theorem signupBody_invitation_failure (cfg : AuthConfig)
    (hashFn : String → String) (so : AuthService.SignupOracles)
    (ob : OnboardOracles) (email password : String) (tid : Option String)
    (adb : AuthDb) (t : String) (ht : t ≠ "") :
    AuthService.signupBody cfg hashFn so { ob with acceptInvitationFails := true }
        email password (some t) tid adb
      = (AuthService.signupBody cfg hashFn so ob email password none tid adb).map
          (fun p => (p.1, p.2.1, OnboardEvent.invitationFailureLogged t :: p.2.2)) := by
  have hon := handleOnboard_invitation_failure cfg ob t tid ht
  rcases hu : findUserByEmail adb email with _ | user
  · rcases hcf : so.createFromAuthFail with _ | e
    · rcases hsv : (if so.emailConfigured then so.sendVerificationFail else none)
        with _ | e2
      · rcases ho : AuthService.handleOnboard cfg ob none tid with e3 | evs' <;>
          rw [ho] at hon <;>
          simp [AuthService.signupBody, hu, hcf, hsv, ho, hon, createFromAuth,
            Except.map]
      · simp [AuthService.signupBody, hu, hcf, hsv, createFromAuth, Except.map]
    · simp [AuthService.signupBody, hu, hcf, Except.map]
  · rcases hp : findPassword adb user.id with _ | pw
    · rcases hup : so.updatePasswordFail with _ | e
      · rcases hsv : (if so.emailConfigured then so.sendVerificationFail else none)
          with _ | e2
        · rcases ho : AuthService.handleOnboard cfg ob none tid with e3 | evs' <;>
            rw [ho] at hon <;>
            simp [AuthService.signupBody, hu, hp, hup, hsv, ho, hon, Except.map]
        · simp [AuthService.signupBody, hu, hp, hup, hsv, Except.map]
      · simp [AuthService.signupBody, hu, hp, hup, Except.map]
    · simp [AuthService.signupBody, hu, hp, Except.map]

/-- C9: a failure of the invitation-acceptance step inside `handleOnboard`
is caught and logged and never propagates — whenever a `signin` (resp.
`signup`) without an invitation token succeeds with some token, the same call
carrying a non-empty invitation token whose acceptance fails still commits
its unit of work and returns the same token, its onboarding events being
those of the invitation-free run with the logged failure prepended. -/
theorem invitation_failure_never_propagates (cfg : AuthConfig)
    (hashFn : String → String) (compare : String → String → Bool)
    (so : AuthService.SignupOracles) (ob : OnboardOracles)
    (email password : String) (tid : Option String) (adb : AuthDb)
    (t : String) (tok tok2 : Token) (ht : t ≠ "") :
    ((AuthService.signin cfg compare ob email password none tid adb).result
        = .ok tok →
      (AuthService.signin cfg compare { ob with acceptInvitationFails := true }
          email password (some t) tid adb).result = .ok tok
      ∧ (AuthService.signin cfg compare { ob with acceptInvitationFails := true }
          email password (some t) tid adb).tx = .committed
      ∧ (AuthService.signin cfg compare { ob with acceptInvitationFails := true }
          email password (some t) tid adb).events
        = .invitationFailureLogged t
            :: (AuthService.signin cfg compare ob email password none tid adb).events)
    ∧ ((AuthService.signup cfg hashFn so ob email password none tid adb).result
        = .ok tok2 →
      (AuthService.signup cfg hashFn so { ob with acceptInvitationFails := true }
          email password (some t) tid adb).result = .ok tok2
      ∧ (AuthService.signup cfg hashFn so { ob with acceptInvitationFails := true }
          email password (some t) tid adb).tx = .committed
      ∧ (AuthService.signup cfg hashFn so { ob with acceptInvitationFails := true }
          email password (some t) tid adb).events
        = .invitationFailureLogged t
            :: (AuthService.signup cfg hashFn so ob email password none tid adb).events) := by
  constructor
  · intro h
    have hlift := signinBody_invitation_failure cfg compare ob email password tid adb t ht
    rcases hb : AuthService.signinBody cfg compare ob email password none tid adb
      with e | ⟨tok', evs⟩
    · simp [AuthService.signin, hb] at h
    · rw [hb] at hlift
      simp only [Except.map] at hlift
      have h' : tok' = tok := by simpa [AuthService.signin, hb] using h
      subst h'
      refine ⟨?_, ?_, ?_⟩ <;> simp [AuthService.signin, hb, hlift]
  · intro h
    have hlift := signupBody_invitation_failure cfg hashFn so ob email password tid adb t ht
    rcases hb : AuthService.signupBody cfg hashFn so ob email password none tid adb
      with e | ⟨tok', db1, evs⟩
    · simp [AuthService.signup, hb] at h
    · rw [hb] at hlift
      simp only [Except.map] at hlift
      have h' : tok' = tok2 := by simpa [AuthService.signup, hb] using h
      subst h'
      refine ⟨?_, ?_, ?_⟩ <;> simp [AuthService.signup, hb, hlift]

/-- C9 (witness): on the fixture database, a signin and a signup that succeed
without an invitation still succeed, commit, and log the failure when a
failing invitation token is supplied. -/
theorem invitation_failure_never_propagates_witness :
    ((AuthService.signin cfgW cmpW { obOkW with acceptInvitationFails := true }
        "b@x.com" "pw" (some "inv-1") none authDbW).result = .ok (jwtSign 2 cfgW)
      ∧ (AuthService.signin cfgW cmpW { obOkW with acceptInvitationFails := true }
          "b@x.com" "pw" (some "inv-1") none authDbW).tx = .committed
      ∧ (AuthService.signin cfgW cmpW { obOkW with acceptInvitationFails := true }
          "b@x.com" "pw" (some "inv-1") none authDbW).events
        = .invitationFailureLogged "inv-1"
            :: (AuthService.signin cfgW cmpW obOkW "b@x.com" "pw" none none authDbW).events)
    ∧ ((AuthService.signup cfgW hashW soW { obOkW with acceptInvitationFails := true }
        "ghost@x.com" "pw" (some "inv-1") none authDbW).result = .ok (jwtSign 3 cfgW)
      ∧ (AuthService.signup cfgW hashW soW { obOkW with acceptInvitationFails := true }
          "ghost@x.com" "pw" (some "inv-1") none authDbW).tx = .committed
      ∧ (AuthService.signup cfgW hashW soW { obOkW with acceptInvitationFails := true }
          "ghost@x.com" "pw" (some "inv-1") none authDbW).events
        = .invitationFailureLogged "inv-1"
            :: (AuthService.signup cfgW hashW soW obOkW "ghost@x.com" "pw" none none authDbW).events) :=
  ⟨(invitation_failure_never_propagates cfgW hashW cmpW soW obOkW
      "b@x.com" "pw" none authDbW "inv-1" (jwtSign 2 cfgW) (jwtSign 3 cfgW)
      (by decide)).1 rfl,
   (invitation_failure_never_propagates cfgW hashW cmpW soW obOkW
      "ghost@x.com" "pw" none authDbW "inv-1" (jwtSign 2 cfgW) (jwtSign 3 cfgW)
      (by decide)).2 rfl⟩

/-! ## C10 — self-registering users get the visitor role -/

/-- C10: on every successful `handleOnboard` run, the tenant join is done
with the non-empty default role list `visitor` rather than an empty list —
in multi-tenant mode with a tenant id present the join-or-ask-approval call
carries roles `visitor`, and in single-tenant mode the create-or-join call
carries roles `visitor`, so self-registering users get the visitor role
immediately instead of waiting for admin approval. -/
theorem onboard_joins_with_visitor_role (cfg : AuthConfig)
    (ob : OnboardOracles) (inv tid : Option String) (evs : List OnboardEvent) :
    ((cfg.tenantMode = "multi" ∨ cfg.tenantMode = "multi-with-subdomain") →
        strFalsy tid = false →
        AuthService.handleOnboard cfg ob inv tid = .ok evs →
        OnboardEvent.joinWithDefaultRolesOrAskApproval (tid.getD "") ["visitor"]
          ∈ evs)
    ∧ (cfg.tenantMode = "single" →
        AuthService.handleOnboard cfg ob inv tid = .ok evs →
        OnboardEvent.createOrJoinDefault ["visitor"] ∈ evs)
    ∧ (["visitor"] : List String) ≠ [] := by
  refine ⟨fun hm htid h => ?_, fun hs h => ?_, by simp⟩
  · have hns : ¬ cfg.tenantMode = "single" := by
      rcases hm with hm | hm <;> simp [hm]
    rcases hmj : ob.multiJoinFail with _ | e
    · simp [AuthService.handleOnboard, hm, htid, hns, hmj] at h
      simp [← h]
    · simp [AuthService.handleOnboard, hm, htid, hns, hmj] at h
  · have hnm : ¬ ((cfg.tenantMode = "multi"
        ∨ cfg.tenantMode = "multi-with-subdomain") ∧ strFalsy tid = false) := by
      simp [hs]
    rcases hs1 : ob.singleInvitedJoinFail with _ | e
    · rcases hs2 : ob.singleCreateOrJoinFail with _ | e2
      · simp [AuthService.handleOnboard, hs, hnm, hs1, hs2] at h
        simp [← h]
      · simp [AuthService.handleOnboard, hs, hnm, hs1, hs2] at h
    · simp [AuthService.handleOnboard, hs, hnm, hs1] at h

/-- C10 (witness): concrete multi-tenant and single-tenant onboarding runs
whose event lists contain the `visitor`-role join. -/
theorem onboard_joins_with_visitor_role_witness :
    (∃ evs, AuthService.handleOnboard cfgW obOkW none (some "t1") = .ok evs
      ∧ OnboardEvent.joinWithDefaultRolesOrAskApproval "t1" ["visitor"] ∈ evs)
    ∧ (∃ evs, AuthService.handleOnboard cfgSingleW obOkW none none = .ok evs
      ∧ OnboardEvent.createOrJoinDefault ["visitor"] ∈ evs) :=
  ⟨⟨[.joinWithDefaultRolesOrAskApproval "t1" ["visitor"]], rfl,
    (onboard_joins_with_visitor_role cfgW obOkW none (some "t1")
      [.joinWithDefaultRolesOrAskApproval "t1" ["visitor"]]).1 (.inl rfl) rfl rfl⟩,
   ⟨[.joinDefaultUsingInvitedEmail, .createOrJoinDefault ["visitor"]], rfl,
    (onboard_joins_with_visitor_role cfgSingleW obOkW none none
      [.joinDefaultUsingInvitedEmail, .createOrJoinDefault ["visitor"]]).2.1 rfl rfl⟩⟩

end TAMcust
